import Mathlib

/-!
Shallow embedding of the `slic3r_display` package (markup data model, JSON codec,
conversion pipeline and box transform) together with theorems settling the
specification claims.

Modelling conventions:
* Python floats are modelled as rationals (`ℚ`) wherever the code only copies,
  negates or linearly combines them; the box-transform code, which takes real
  square roots, is modelled over `ℝ`.
* A Python function that can raise is modelled as returning `Except PyError _`;
  `assert` failures map to `PyError.assertionError`, comparisons with `None`
  to `PyError.typeError`, tuple-unpacking failures to `PyError.valueError`,
  `raise NotImplementedError` to `PyError.notImplementedError` and failures to
  open a file to `PyError.ioError`.
* Serialisation (`json.dumps`) is modelled structurally: the encoder produces a
  record with the same fields the emitted JSON object would have, rather than a
  string of characters.
-/

namespace Slic3rDisplay

/-- `Float3VectorType`: a 3-vector of coordinates (`types.py`). -/
structure V3 where
  x : ℚ
  y : ℚ
  z : ℚ
deriving DecidableEq, Repr

/-- The ways the embedded Python code can raise. -/
inductive PyError where
  | assertionError
  | typeError
  | valueError
  | notImplementedError
  | ioError
deriving DecidableEq, Repr

/-! Constants from `settings.py`. -/

def STATUS_DEFINED : String := "defined"

def STATUS_UNDEFINED : String := "undefined"

def DEFAULT_POSITION : V3 := ⟨0, 0, 0⟩

def DEFAULT_ORIENTATION : List ℚ := [-1, 0, 0, 0, -1, 0, 0, 0, 1]

def DEFAULT_COLOR : List ℚ := [2/5, 1, 1]

def DEFAULT_SELECTED_COLOR : List ℚ :=
  [1, 5000076295109484/10000000000000000, 5000076295109484/10000000000000000]

def DEFAULT_SCALE : ℚ := 3

def DEFAULT_THICKNESS : ℚ := 1/5

def DEFAULT_GLYPH_TYPE : String := "Sphere3D"

def DEFAULT_PROJECTION_COLOR : List ℚ := [1, 1, 1]

def DEFAULT_SLICE_OPACITY : ℚ := 3/5

def DEFAULT_SNAP_MODE : String := "toVisibleSurface"

def LINE_MARKUP_TYPE : String := "Line"

def POINT_MARKUP_TYPE : String := "Fiducial"

def CURVE_MARKUP_TYPE : String := "Curve"

def CLOSED_CURVE_MARKUP_TYPE : String := "ClosedCurve"

def DEFAULT_COORDINATE_SYSTEM : String := "LPS"

def DEFAULT_COORDINATE_UNITS : String := "mm"

def DEFAULT_LABEL_FORMAT : String := "%N-%d"

/-- `markup.ControlPoint` (a dataclass; the field defaults mirror the source).
`id` is modelled as `Nat`: every construction site in the sources passes an
integer. -/
structure ControlPoint where
  id : Nat
  label : String
  description : String := ""
  associatedNodeID : String := ""
  position : V3 := DEFAULT_POSITION
  orientation : List ℚ := DEFAULT_ORIENTATION
  selected : Bool := true
  locked : Bool := false
  visibility : Bool := true
  positionStatus : String := STATUS_UNDEFINED
deriving DecidableEq, Repr

/-- `ControlPoint.set_position`: writes the three position components and marks
the status defined. -/
def ControlPoint.set_position (cp : ControlPoint) (x y z : ℚ) : ControlPoint :=
  { cp with positionStatus := STATUS_DEFINED, position := ⟨x, y, z⟩ }

/-- `ControlPoint.make_control_point`: builds `cls(id_, f"{label}-{id_}")` and
then calls `set_position`. -/
def ControlPoint.make_control_point (id_ : Nat) (label : String) (x y z : ℚ) :
    ControlPoint :=
  ControlPoint.set_position { id := id_, label := label ++ "-" ++ toString id_ } x y z

/-- `markup.Display` dataclass, with the literal field defaults of the source. -/
structure Display where
  visibility : Bool := true
  opacity : ℚ := 1
  color : List ℚ := DEFAULT_COLOR
  selectedColor : List ℚ := DEFAULT_SELECTED_COLOR
  activeColor : List ℚ := DEFAULT_COLOR
  propertiesLabelVisibility : Bool := true
  pointLabelsVisibility : Bool := false
  textScale : ℚ := DEFAULT_SCALE
  glyphType : String := DEFAULT_GLYPH_TYPE
  glyphScale : ℚ := DEFAULT_SCALE
  sliceProjection : Bool := false
  sliceProjectionUseFiducialColor : Bool := true
  sliceProjectionOutlinedBehindSlicePlane : Bool := false
  sliceProjectionColor : List ℚ := DEFAULT_PROJECTION_COLOR
  sliceProjectionOpacity : ℚ := DEFAULT_SLICE_OPACITY
  lineThickness : ℚ := DEFAULT_THICKNESS
  lineColorFadingStart : ℚ := 1
  lineColorFadingEnd : ℚ := 10
  lineColorFadingSaturation : ℚ := 1
  lineColorFadingHueOffset : ℚ := 0
  handlesInteractive : Bool := false
  translationHandleVisibility : Bool := true
  rotationHandleVisibility : Bool := true
  scaleHandleVisibility : Bool := true
  interactionHandleScale : ℚ := DEFAULT_SCALE
  snapMode : String := DEFAULT_SNAP_MODE
deriving DecidableEq, Repr

/-- The closed set of concrete `Markup` subclasses of `markup.py`. -/
inductive MarkupVariant where
  | point
  | line
  | curve
deriving DecidableEq, Repr

/-- The `type` string each subclass constructor passes to `Markup.__init__`
(`PointMarkup` → `"Fiducial"`, `LineMarkup` → `"Line"`, `CurveMarkup` →
`"Curve"`). -/
def MarkupVariant.typeString : MarkupVariant → String
  | .point => POINT_MARKUP_TYPE
  | .line => LINE_MARKUP_TYPE
  | .curve => CURVE_MARKUP_TYPE

/-- The `prefix` property: the base class returns `"L"` and only `CurveMarkup`
overrides it (neither `PointMarkup` nor `LineMarkup` does). -/
def MarkupVariant.labelStem : MarkupVariant → String
  | .curve => "OC"
  | _ => "L"

/-- The `capacity` property: `None` on the base class and `PointMarkup` /
`CurveMarkup`, `2` on `LineMarkup`. -/
def MarkupVariant.capacity : MarkupVariant → Option Nat
  | .line => some 2
  | _ => none

/-- The static `types()` lists accepted by each variant's decoder. -/
def MarkupVariant.typesList : MarkupVariant → List String
  | .point => [POINT_MARKUP_TYPE]
  | .line => [LINE_MARKUP_TYPE]
  | .curve => [CURVE_MARKUP_TYPE, CLOSED_CURVE_MARKUP_TYPE]

/-- `markup.Markup` dataclass fields. The `type` attribute is forced by the
subclass constructors, hence it is carried as `variant`; `display` is carried
by value here (the reference-aliasing behaviour of the shared class-level
default `Display()` instance is modelled separately below). -/
structure Markup where
  variant : MarkupVariant
  controlPoints : List ControlPoint := []
  display : Display := {}
  coordinateSystem : String := DEFAULT_COORDINATE_SYSTEM
  coordinateUnits : String := DEFAULT_COORDINATE_UNITS
  fixedNumberOfControlPoints : Bool := false
  labelFormat : String := DEFAULT_LABEL_FORMAT
  lastUsedControlPointNumber : Nat := 0
deriving DecidableEq, Repr

/-- Construction `PointMarkup()` / `LineMarkup()` / `CurveMarkup()` with no
arguments (all other dataclass fields defaulted). -/
def Markup.factory (v : MarkupVariant) : Markup := { variant := v }

/-- The label built inside `Markup.add`:
`f"{self.prefix}{f'_{id_}' if id_ else ''}"` — note that the suffix is dropped
both for `None` and for the falsy integer `0`. -/
def Markup.addLabel (v : MarkupVariant) (id_ : Option Nat) : String :=
  match id_ with
  | some n => if n ≠ 0 then v.labelStem ++ "_" ++ toString n else v.labelStem
  | none => v.labelStem

/-- `Markup.add`: asserts `capacity is None or len(self) < capacity`, then
appends `make_control_point(id_=len+1, label=…, x, y, z)`. -/
def Markup.add (m : Markup) (point : V3) (id_ : Option Nat := none) :
    Except PyError Markup :=
  match m.variant.capacity with
  | none =>
      .ok { m with controlPoints := m.controlPoints ++
        [ControlPoint.make_control_point (m.controlPoints.length + 1)
          (Markup.addLabel m.variant id_) point.x point.y point.z] }
  | some c =>
      if m.controlPoints.length < c then
        .ok { m with controlPoints := m.controlPoints ++
          [ControlPoint.make_control_point (m.controlPoints.length + 1)
            (Markup.addLabel m.variant id_) point.x point.y point.z] }
      else .error .assertionError

/-- A sequence of `add` calls without explicit ids. -/
def Markup.addList (m : Markup) : List V3 → Except PyError Markup
  | [] => .ok m
  | p :: rest => do
      let m' ← m.add p
      Markup.addList m' rest

/-- `Markup.__setitem__`: evaluates the chained comparison
`0 < id_ <= self.capacity and id_ <= len(self)` left to right.  When
`capacity` is `None` and `0 < id_`, the comparison `id_ <= None` raises
`TypeError`; an overall `False` raises `AssertionError`.  The body then either
takes the (dead, see the theorems) `id_ == len+1` add-branch or overwrites
point `id_ - 1` via `set_position`, and records `lastUsedControlPointNumber`. -/
def Markup.setitem (m : Markup) (id_ : Nat) (point : V3) : Except PyError Markup :=
  if 0 < id_ then
    match m.variant.capacity with
    | none => .error .typeError
    | some c =>
        if id_ ≤ c ∧ id_ ≤ m.controlPoints.length then
          if id_ = m.controlPoints.length + 1 then do
            let m' ← m.add point
            .ok { m' with lastUsedControlPointNumber := id_ }
          else
            .ok { m with
              controlPoints := m.controlPoints.set (id_ - 1)
                (ControlPoint.set_position
                  (m.controlPoints.getD (id_ - 1) { id := 0, label := "" })
                  point.x point.y point.z),
              lastUsedControlPointNumber := id_ }
        else .error .assertionError
  else .error .assertionError

/-! `core.py`: the document wrapper and its JSON codec. -/

/-- `core.MrkClass`: wrapper around a list of Markups. -/
structure MrkClass where
  markups : List Markup
deriving DecidableEq, Repr

/-- The schema URL injected by `MrkClassEncoder.default`. -/
def SCHEMA_URL : String :=
  "https://raw.githubusercontent.com/slicer/slicer/master/Modules/Loadable/Markups/Resources/Schema/markups-schema-v1.0.3.json#"

/-- The JSON object `asdict` produces for one `Markup`: identical fields, with
the class identity reduced to the `type` string. -/
structure MarkupJson where
  type : String
  controlPoints : List ControlPoint
  display : Display
  coordinateSystem : String
  coordinateUnits : String
  fixedNumberOfControlPoints : Bool
  labelFormat : String
  lastUsedControlPointNumber : Nat
deriving DecidableEq, Repr

/-- The JSON document `MrkClassEncoder.default` produces for a `MrkClass`:
`asdict(o)` plus the injected `"@schema"` key. -/
structure MrkJson where
  markups : List MarkupJson
  atSchema : String
deriving DecidableEq, Repr

/-- `asdict` on one markup (the recursive step of `MrkClassEncoder.default`). -/
def encodeMarkup (m : Markup) : MarkupJson :=
  { type := m.variant.typeString
    controlPoints := m.controlPoints
    display := m.display
    coordinateSystem := m.coordinateSystem
    coordinateUnits := m.coordinateUnits
    fixedNumberOfControlPoints := m.fixedNumberOfControlPoints
    labelFormat := m.labelFormat
    lastUsedControlPointNumber := m.lastUsedControlPointNumber }

/-- `MrkClassEncoder.default` on a `MrkClass` document. -/
def MrkClassEncoder.encode (d : MrkClass) : MrkJson :=
  { markups := d.markups.map encodeMarkup, atSchema := SCHEMA_URL }

/-- The control-point loop of `Markup.decoder`:
`for control_point in item["controlPoints"]: markups[-1].add(...)`, passing
each point's `position` and its `id` (used as label suffix). -/
def Markup.decodeAddAll (m : Markup) : List ControlPoint → Except PyError Markup
  | [] => .ok m
  | cp :: rest => do
      let m' ← m.add cp.position (some cp.id)
      Markup.decodeAddAll m' rest

/-- The body of `Markup.decoder` for one `"markups"` entry: assert the entry's
`type` is accepted, then `add` every control point. -/
def Markup.decodeItem (v : MarkupVariant) (item : MarkupJson) :
    Except PyError Markup :=
  if item.type ∈ v.typesList then
    Markup.decodeAddAll (Markup.factory v) item.controlPoints
  else .error .assertionError

/-- The `for item in json_dict["markups"]` loop of `Markup.decoder`. -/
def Markup.decoderAux (v : MarkupVariant) :
    List MarkupJson → Except PyError (List Markup)
  | [] => .ok []
  | item :: rest => do
      let m ← Markup.decodeItem v item
      let ms ← Markup.decoderAux v rest
      .ok (m :: ms)

/-- `Markup.decoder` applied to a parsed document.  The embedded document type
always carries the `markups` key, so the source's early-return branch for
dictionaries without `"markups"` (which exists because the decoder doubles as
a `json.load` object hook) has no counterpart here. -/
def Markup.decoder (v : MarkupVariant) (doc : MrkJson) :
    Except PyError (List Markup) :=
  Markup.decoderAux v doc.markups

/-! `core.Slic3rPointRepresentable.make_from`. -/

/-- The two non-raising outcomes of `make_from`: the empty string returned for
empty input, or the serialised document (modelled structurally). -/
inductive MakeFromOut where
  | emptyStr
  | jsonDoc (doc : MrkClass)
deriving DecidableEq, Repr

/-- Reads component `i` of a raw point.  Every call site is guarded by the
`len(point) == 3` assertion, so the default value is never produced. -/
def rawComponent (p : List ℚ) (i : Nat) : ℚ := p.getD i 0

/-- `Slic3rPointRepresentable.make_from`: empty input returns the empty
string; otherwise the shape assertions run (the `isinstance`/numeric checks
hold by typing) and one `PointMarkup` is built whose control points are
`make_control_point(i, label=f"P_{i+1}", *point)` for the 0-based enumeration
index `i`. -/
def Slic3rPointRepresentable.make_from (point_arrangements : List (List ℚ)) :
    Except PyError MakeFromOut :=
  if point_arrangements.length = 0 then .ok .emptyStr
  else if point_arrangements.all (fun p => p.length = 3) then
    .ok (.jsonDoc ⟨[{ Markup.factory .point with
      controlPoints := point_arrangements.enum.map (fun ip =>
        ControlPoint.make_control_point ip.1 ("P_" ++ toString (ip.1 + 1))
          (rawComponent ip.2 0) (rawComponent ip.2 1) (rawComponent ip.2 2)) }]⟩)
  else .error .assertionError

/-! The `Representable` implementations driven by the conversion pipeline
(`convert.py`): `_PointImplementation`, `_LineImplementation` and
`_CurveImplementation`, identified by their raw geometry.  The Box variant
overrides `write`/`print` and takes no part in this pipeline. -/

/-- A pipeline representable, carrying its raw geometry. -/
inductive Representable where
  | point (points : List V3)
  | line (lines : List (List V3))
  | curve (curves : List (List V3))
deriving DecidableEq, Repr

/-- The Python class of a representable (what `type(r) is type(s)` compares). -/
inductive RepKind where
  | point
  | line
  | curve
deriving DecidableEq, Repr

def Representable.kind : Representable → RepKind
  | .point _ => .point
  | .line _ => .line
  | .curve _ => .curve

/-- The loop of `Slic3rPointRepresentable._update_markups`:
`markup.add(self.get_point(id_), id_=id_ + 1)` for each 0-based `id_`; the
counter `n` carries `id_ + 1`. -/
def pointAddLoop (m : Markup) (n : Nat) : List V3 → Except PyError Markup
  | [] => .ok m
  | p :: rest => do
      let m' ← m.add p (some n)
      pointAddLoop m' (n + 1) rest

/-- One iteration of `Slic3rLineRepresentable._update_markups`:
`first_point, second_point = self.get_line(id_)` (a `ValueError` unless the
line holds exactly two points), then two `add` calls with `id_ + 1 = n`. -/
def lineMarkupFor (l : List V3) (n : Nat) : Except PyError Markup :=
  match l with
  | [a, b] => do
      let m ← (Markup.factory .line).add a (some n)
      m.add b (some n)
  | _ => .error .valueError

/-- The markup-list construction of `Slic3rLineRepresentable._update_markups`. -/
def lineUpdateLoop (n : Nat) : List (List V3) → Except PyError (List Markup)
  | [] => .ok []
  | l :: rest => do
      let m ← lineMarkupFor l n
      let ms ← lineUpdateLoop (n + 1) rest
      .ok (m :: ms)

/-- Modelled from the spec: `Slic3rCurveRepresentable` is imported by
`convert.py` and `__init__.py` but its class body is missing from the
sources.  Per the spec, its `_update_markups` emits one Curve markup per point
sequence, with the points added in order (prefix `"OC"`). -/
def curveMarkupFor (c : List V3) : Except PyError Markup :=
  (Markup.factory .curve).addList c

/-- Modelled from the spec: the markup list built by the missing
`Slic3rCurveRepresentable._update_markups` — one Curve markup per sequence. -/
def curveUpdateLoop : List (List V3) → Except PyError (List Markup)
  | [] => .ok []
  | c :: rest => do
      let m ← curveMarkupFor c
      let ms ← curveUpdateLoop rest
      .ok (m :: ms)

/-- `_update_markups` of the pipeline representables: replaces the owned
document's markup list wholesale from the raw geometry. -/
def Representable.updateMarkups : Representable → Except PyError (List Markup)
  | .point ps => do
      let m ← pointAddLoop (Markup.factory .point) 1 ps
      .ok [m]
  | .line ls => lineUpdateLoop 1 ls
  | .curve cs => curveUpdateLoop cs

/-- The dummy `_PointImplementation` result of `convert`/`concatenate`: its
raw `points` list. -/
structure PointRep where
  points : List V3
deriving DecidableEq, Repr

/-- The flattening loop shared by `convert` and `concatenate`:
`for markup in …: for point in markup: result.points.append(point.position)`
(iterating a `Markup` walks `controlPoints` in order via `__getitem__`). -/
def flattenMarkups (ms : List Markup) : List V3 :=
  (ms.map (fun m => m.controlPoints.map (fun cp => cp.position))).flatten

/-- The per-representable loop of `concatenate`: rebuild, then flatten. -/
def concatenateLoop : List Representable → Except PyError (List V3)
  | [] => .ok []
  | r :: rest => do
      let ms ← r.updateMarkups
      let tail ← concatenateLoop rest
      .ok (flattenMarkups ms ++ tail)

/-- `convert.concatenate`: asserts the argument list is non-empty and that all
arguments have exactly the class of the first (`type(r) is type(rs[0])`)
before any representable is rebuilt or flattened; then rebuilds each input and
concatenates all flattened control-point positions. -/
def concatenate : List Representable → Except PyError PointRep
  | [] => .error .assertionError
  | r0 :: rest =>
      if (r0 :: rest).all (fun r => r.kind = r0.kind) then do
        let pts ← concatenateLoop (r0 :: rest)
        .ok ⟨pts⟩
      else .error .assertionError

/-! File-type detection of `convert_file` (`convert.py`).  The scanned text is
the string the source builds from the file (`"\n".join(file.readlines())`);
it is modelled as a list of characters. -/

/-- The literal pattern of `_PointImplementation.contains_points`. -/
def pointTypePattern : List Char := ("\"type\": \"Fiducial\",").toList

/-- The literal pattern of `_LineImplementation.contains_lines`. -/
def lineTypePattern : List Char := ("\"type\": \"Line\",").toList

/-- The left alternative of the `_CurveImplementation.contains_curves` regex
`"type": "Curve|ClosedCurve",` — the alternation `|` splits the whole
pattern, so this branch is `"type": "Curve` with no closing quote. -/
def curveAltLeftPattern : List Char := ("\"type\": \"Curve").toList

/-- The right alternative of the same regex: `ClosedCurve",` with no leading
`"type": ` context. -/
def curveAltRightPattern : List Char := ("ClosedCurve\",").toList

/-- `re.search(pattern, content) is not None` for a literal pattern. -/
def searchFound (pattern content : List Char) : Bool := decide (pattern <:+: content)

/-- `_PointImplementation.contains_points`. -/
def contains_points (content : List Char) : Bool := searchFound pointTypePattern content

/-- `_LineImplementation.contains_lines`. -/
def contains_lines (content : List Char) : Bool := searchFound lineTypePattern content

/-- `_CurveImplementation.contains_curves`: the regex alternation matches if
either alternative occurs anywhere in the content. -/
def contains_curves (content : List Char) : Bool :=
  searchFound curveAltLeftPattern content || searchFound curveAltRightPattern content

/-- The markup kind `convert_file` settles on. -/
inductive DetectedKind where
  | point
  | line
  | curve
deriving DecidableEq, Repr

/-- The detection chain of `convert_file`: Point, then Line, then Curve, else
`raise NotImplementedError` (modelled as `none`). -/
def detectMarkupKind (content : List Char) : Option DetectedKind :=
  if contains_points content then some .point
  else if contains_lines content then some .line
  else if contains_curves content then some .curve
  else none

/-- The detection the claim describes, for comparison: a scan for the literal
substring `"type": "<TypeName>",` for each candidate type, in the order
Point → Line → Curve/ClosedCurve. -/
def claimedDetectMarkupKind (content : List Char) : Option DetectedKind :=
  if searchFound pointTypePattern content then some .point
  else if searchFound lineTypePattern content then some .line
  else if searchFound (("\"type\": \"Curve\",").toList) content
      || searchFound (("\"type\": \"ClosedCurve\",").toList) content then some .curve
  else none

/-! `Slic3rBoxRepresentable.center_to_origin` (`core.py`), modelled over `ℝ`
because the scaled branch takes L2 norms.  Vectors are `Fin 3 → ℝ` and the
`axes` argument is the row matrix `numpy.array(axes)`. -/

/-- `A.dot(v)` for a 3×3 matrix and a 3-vector: `(A.dot v) i = ∑ j, A i j * v j`. -/
noncomputable def npMatVec (A : Fin 3 → Fin 3 → ℝ) (v : Fin 3 → ℝ) : Fin 3 → ℝ :=
  fun i => ∑ j, A i j * v j

/-- The L2 norm of row `j` of the axes matrix (`numpy.linalg.norm(A, axis=1)`). -/
noncomputable def rowNorm (A : Fin 3 → Fin 3 → ℝ) (j : Fin 3) : ℝ :=
  Real.sqrt (∑ k, (A j k) ^ 2)

/-- `A /= v` for a `(3,3)` array and a `(3,)` vector: numpy broadcasting
divides entry `(i, j)` by `v j` — each COLUMN `j` is divided by `v j`. -/
noncomputable def npBroadcastDiv (A : Fin 3 → Fin 3 → ℝ) (v : Fin 3 → ℝ) :
    Fin 3 → Fin 3 → ℝ :=
  fun i j => A i j / v j

/-- The literal offset vector `[0.5, 0.5, 0.5]`. -/
noncomputable def halfVec : Fin 3 → ℝ := fun _ => 1 / 2

/-- `center_to_origin(center, axes)` with `scale` unset:
`array(center) - array(axes).dot([0.5, 0.5, 0.5])`. -/
noncomputable def center_to_origin (center : Fin 3 → ℝ) (axes : Fin 3 → Fin 3 → ℝ) :
    Fin 3 → ℝ :=
  fun i => center i - npMatVec axes halfVec i

/-- `center_to_origin(center, axes, scale)` with `scale` given:
`T = array(axes); T /= norm(T, axis=1);
return array(center) - T.dot([0.5, 0.5, 0.5] * scale)`.
`scale` is taken to be a numpy 3-vector, for which `[0.5,0.5,0.5] * scale` is
the elementwise product (passing a plain tuple would raise `TypeError`). -/
noncomputable def center_to_origin_scaled (center : Fin 3 → ℝ)
    (axes : Fin 3 → Fin 3 → ℝ) (scale : Fin 3 → ℝ) : Fin 3 → ℝ :=
  fun i =>
    center i - npMatVec (npBroadcastDiv axes (rowNorm axes))
      (fun j => halfVec j * scale j) i

/-- The scaled branch as the claim words it (for comparison only): the axes
ROWS are first normalised by their L2 norm, then the same offset computation
runs scaled by `scale`. -/
noncomputable def center_to_origin_scaled_claimed (center : Fin 3 → ℝ)
    (axes : Fin 3 → Fin 3 → ℝ) (scale : Fin 3 → ℝ) : Fin 3 → ℝ :=
  fun i =>
    center i - npMatVec (fun i' j => axes i' j / rowNorm axes i')
      (fun j => halfVec j * scale j) i

/-! Python reference semantics of the `display` field (`markup.py`).  The
dataclass declaration `display: Display = Display()` evaluates `Display()`
once, at class-definition time; every `Markup` constructed without an
explicit `display` argument is bound to that same object.  A store of
`Display` objects with `Nat` references models the Python heap. -/

/-- The heap of `Display` objects. -/
structure DisplayStore where
  displays : List Display
deriving DecidableEq, Repr

/-- The reference to the one `Display()` evaluated in the class body. -/
def classDefaultDisplayRef : Nat := 0

/-- The heap right after the `Markup` class body ran: it holds exactly the
single class-level default instance. -/
def initialDisplayStore : DisplayStore := ⟨[{}]⟩

/-- A `Markup` object as the heap sees it: its variant and the reference to
its `display` object. -/
structure MarkupObj where
  variant : MarkupVariant
  displayRef : Nat
deriving DecidableEq, Repr

/-- Constructing a markup without an explicit `display` argument: the field is
bound to the class-level default object. -/
def MarkupObj.mkDefault (v : MarkupVariant) : MarkupObj :=
  ⟨v, classDefaultDisplayRef⟩

/-- Constructing a markup with an explicit, freshly allocated `display`. -/
def MarkupObj.mkWithDisplay (s : DisplayStore) (v : MarkupVariant)
    (d : Display) : DisplayStore × MarkupObj :=
  (⟨s.displays ++ [d]⟩, ⟨v, s.displays.length⟩)

/-- Dereference a display. -/
def DisplayStore.get (s : DisplayStore) (r : Nat) : Display :=
  s.displays.getD r {}

/-- An in-place mutation through a markup's display reference, e.g.
`markup.display.opacity = value`. -/
def DisplayStore.setOpacity (s : DisplayStore) (r : Nat) (value : ℚ) :
    DisplayStore :=
  ⟨s.displays.set r { s.get r with opacity := value }⟩

/-! `Slic3rRepresentable.write` / `write_from` (`core.py`): the whole body —
opening the file, `_update_markups` via `print`, and serialisation — runs
inside `try: … except Exception: print(f"Could not write to '{filename}'")`.
The Box variant overrides `write` and is outside this model. -/

/-- What a `write` call leaves behind: either the serialised document in the
file, or the could-not-write message naming the path. -/
inductive WriteOutcome where
  | wrote (doc : MrkJson)
  | couldNotWrite (path : String)
deriving DecidableEq, Repr

/-- `open(filename, "w")`: succeeds or raises, per the environment. -/
def openForWrite (openOk : Bool) : Except PyError Unit :=
  if openOk then .ok () else .error .ioError

/-- The body of `Slic3rRepresentable.print`: rebuild, then serialise. -/
def Slic3rRepresentable.printResult (r : Representable) :
    Except PyError MrkJson := do
  let ms ← r.updateMarkups
  .ok (MrkClassEncoder.encode ⟨ms⟩)

/-- `Slic3rRepresentable.write`: the `try` body opens the file and runs
`print`; any exception is caught and replaced by the message naming the
path.  `write` itself never raises, which the outer `.ok` records. -/
def Slic3rRepresentable.write (openOk : Bool) (r : Representable)
    (path : String) : Except PyError WriteOutcome :=
  let body : Except PyError MrkJson := do
    let _ ← openForWrite openOk
    Slic3rRepresentable.printResult r
  .ok (match body with
    | .ok doc => .wrote doc
    | .error _ => .couldNotWrite path)

/-- The serialised outcome of `print_from`/`make_from` (empty string or
document), as written to the file. -/
inductive WriteFromOutcome where
  | wrote (out : MakeFromOut)
  | couldNotWrite (path : String)
deriving DecidableEq, Repr

/-- `Slic3rRepresentable.write_from` for the Point representable: the `try`
body opens the file and runs `print_from`, i.e. `make_from`; any exception —
including the eager shape assertions of `make_from` — is caught and replaced
by the message naming the path. -/
def Slic3rRepresentable.write_from (openOk : Bool)
    (point_arrangements : List (List ℚ)) (path : String) :
    Except PyError WriteFromOutcome :=
  let body : Except PyError MakeFromOut := do
    let _ ← openForWrite openOk
    Slic3rPointRepresentable.make_from point_arrangements
  .ok (match body with
    | .ok out => .wrote out
    | .error _ => .couldNotWrite path)

/-! Concrete values used by witnesses and counterexamples. -/

def cpA : ControlPoint := ControlPoint.make_control_point 1 "L_1" 0 0 0

def cpB : ControlPoint := ControlPoint.make_control_point 2 "L_1" 1 0 0

/-- A `LineMarkup` holding one control point. -/
def lineMarkupOne : Markup := { Markup.factory .line with controlPoints := [cpA] }

/-- A `LineMarkup` holding two control points (full capacity). -/
def lineMarkupTwo : Markup := { Markup.factory .line with controlPoints := [cpA, cpB] }

/-- A `PointMarkup` holding one control point. -/
def pointMarkupOne : Markup := { Markup.factory .point with controlPoints := [cpA] }

/-- Claim C2: a `LineMarkup` already holding 2 control points rejects `add`
with a precondition violation; on a `PointMarkup` or `CurveMarkup` any
sequence of `add` calls succeeds (capacity is unbounded). -/
theorem C2_capacity :
    (∀ (m : Markup) (p : V3) (i : Option Nat), m.variant = .line →
      m.controlPoints.length = 2 → m.add p i = .error .assertionError) ∧
    (∀ (m : Markup) (ps : List V3), m.variant = .point ∨ m.variant = .curve →
      ∃ m', m.addList ps = .ok m') := by
  constructor
  · intro m p i hv hlen
    simp [Markup.add, hv, MarkupVariant.capacity, hlen]
  · intro m ps hv
    induction ps generalizing m with
    | nil => exact ⟨m, rfl⟩
    | cons p rest ih =>
        have hcap : m.variant.capacity = none := by
          rcases hv with h | h <;> simp [h, MarkupVariant.capacity]
        have hstep : m.add p = .ok { m with controlPoints := m.controlPoints ++
            [ControlPoint.make_control_point (m.controlPoints.length + 1)
              (Markup.addLabel m.variant none) p.x p.y p.z] } := by
          simp [Markup.add, hcap]
        have hv' : ({ m with controlPoints := m.controlPoints ++
            [ControlPoint.make_control_point (m.controlPoints.length + 1)
              (Markup.addLabel m.variant none) p.x p.y p.z] } : Markup).variant = .point ∨
            ({ m with controlPoints := m.controlPoints ++
            [ControlPoint.make_control_point (m.controlPoints.length + 1)
              (Markup.addLabel m.variant none) p.x p.y p.z] } : Markup).variant = .curve := hv
        obtain ⟨m', hm'⟩ := ih _ hv'
        refine ⟨m', ?_⟩
        simp only [Markup.addList]
        rw [hstep]
        exact hm'

/-- Witness for C2 at concrete inputs: a full line rejects a third point, and
a point markup accepts three successive points. -/
theorem C2_capacity_witness :
    lineMarkupTwo.add ⟨2, 0, 0⟩ none = .error .assertionError ∧
    ∃ m', (Markup.factory .point).addList [⟨1, 2, 3⟩, ⟨4, 5, 6⟩, ⟨7, 8, 9⟩] = .ok m' :=
  ⟨C2_capacity.1 lineMarkupTwo ⟨2, 0, 0⟩ none rfl rfl,
   C2_capacity.2 (Markup.factory .point) [⟨1, 2, 3⟩, ⟨4, 5, 6⟩, ⟨7, 8, 9⟩] (Or.inl rfl)⟩

/-- Claim C3 (code bug): `__setitem__` at `i = len + 1` is claimed to behave
as `add`, but the assertion `0 < id_ <= self.capacity and id_ <= len(self)`
rejects it, making the source's own `id_ == len(self) + 1` branch
unreachable; and on the unbounded variants the comparison `id_ <= None`
raises `TypeError` for every positive index.  At full capacity the in-range
overwrite path does work as described. -/
theorem C3_setitem_code_bug :
    lineMarkupOne.setitem 2 ⟨1, 2, 3⟩ = .error .assertionError ∧
    pointMarkupOne.setitem 1 ⟨1, 2, 3⟩ = .error .typeError ∧
    (lineMarkupTwo.setitem 2 ⟨7, 8, 9⟩).map
      (fun m => (m.controlPoints.map fun cp => cp.position,
        m.lastUsedControlPointNumber)) =
      .ok ([⟨0, 0, 0⟩, ⟨7, 8, 9⟩], 2) :=
  ⟨rfl, rfl, rfl⟩

/-- Claim C7 counterexample: a file whose content is `"foo": "ClosedCurve",`
contains none of the literal substrings `"type": "<TypeName>",`, so the claim
says detection fails; the code's curve regex `"type": "Curve|ClosedCurve",`
nevertheless matches its right alternative `ClosedCurve",`. -/
theorem C7_detect_counterexample :
    detectMarkupKind (("\"foo\": \"ClosedCurve\",").toList) = some .curve ∧
    claimedDetectMarkupKind (("\"foo\": \"ClosedCurve\",").toList) = none := by decide

/-- Claim C7 (amended): detection scans in the order Point → Line → Curve
with the first match winning and fails when nothing matches, but the two
curve candidates are not checked as full literal substrings: the alternation
in the regex `"type": "Curve|ClosedCurve",` splits the whole pattern, so the
curve step matches content containing `"type": "Curve` (no closing quote
required) or containing `ClosedCurve",` (no `"type": ` context required). -/
theorem C7_detect_amended (content : List Char) :
    (detectMarkupKind content = some .point ↔ pointTypePattern <:+: content) ∧
    (detectMarkupKind content = some .line ↔
      ¬ pointTypePattern <:+: content ∧ lineTypePattern <:+: content) ∧
    (detectMarkupKind content = some .curve ↔
      ¬ pointTypePattern <:+: content ∧ ¬ lineTypePattern <:+: content ∧
        (curveAltLeftPattern <:+: content ∨ curveAltRightPattern <:+: content)) ∧
    (detectMarkupKind content = none ↔
      ¬ pointTypePattern <:+: content ∧ ¬ lineTypePattern <:+: content ∧
        ¬ curveAltLeftPattern <:+: content ∧ ¬ curveAltRightPattern <:+: content) := by
  unfold detectMarkupKind contains_points contains_lines contains_curves searchFound
  by_cases h1 : pointTypePattern <:+: content <;>
    by_cases h2 : lineTypePattern <:+: content <;>
      by_cases h3 : curveAltLeftPattern <:+: content <;>
        by_cases h4 : curveAltRightPattern <:+: content <;>
          simp [h1, h2, h3, h4]

/-- The in-place operations this system performs on an existing
`ControlPoint`: `set_position` (`markup.py`) and the direct position write of
`swap_coordinate_system_for` (`convert.py`), which bypasses `set_position`
and leaves `positionStatus` untouched. -/
inductive CPOp where
  | setPos (x y z : ℚ)
  | swapCoords
deriving DecidableEq, Repr

def applyCPOp (cp : ControlPoint) : CPOp → ControlPoint
  | .setPos x y z => cp.set_position x y z
  | .swapCoords =>
      { cp with position := ⟨-cp.position.x, -cp.position.y, cp.position.z⟩ }

def applyCPOps (cp : ControlPoint) : List CPOp → ControlPoint
  | [] => cp
  | op :: rest => applyCPOps (applyCPOp cp op) rest

/-- Whether an operation is a `set_position` call. -/
def CPOp.isSetPos : CPOp → Bool
  | .setPos _ _ _ => true
  | .swapCoords => false

/-- Claim C8: a dataclass-constructed `ControlPoint` starts `"undefined"`;
`set_position` makes the status `"defined"`; a defined status survives every
operation of this system; and after any operation sequence the status is
`"defined"` exactly when some `set_position` occurred in it. -/
theorem C8_position_status :
    (∀ (id_ : Nat) (label : String),
      ({ id := id_, label := label } : ControlPoint).positionStatus = STATUS_UNDEFINED) ∧
    (∀ (cp : ControlPoint) (x y z : ℚ),
      (cp.set_position x y z).positionStatus = STATUS_DEFINED) ∧
    (∀ (cp : ControlPoint) (ops : List CPOp), cp.positionStatus = STATUS_DEFINED →
      (applyCPOps cp ops).positionStatus = STATUS_DEFINED) ∧
    (∀ (id_ : Nat) (label : String) (ops : List CPOp),
      (applyCPOps ({ id := id_, label := label } : ControlPoint) ops).positionStatus =
        if ops.any CPOp.isSetPos then STATUS_DEFINED else STATUS_UNDEFINED) := by
  have hpres : ∀ (cp : ControlPoint) (ops : List CPOp),
      cp.positionStatus = STATUS_DEFINED →
      (applyCPOps cp ops).positionStatus = STATUS_DEFINED := by
    intro cp ops
    induction ops generalizing cp with
    | nil => exact fun h => h
    | cons op rest ih =>
        intro h
        cases op with
        | setPos x y z => exact ih _ rfl
        | swapCoords => exact ih _ h
  refine ⟨fun _ _ => rfl, fun _ _ _ _ => rfl, hpres, ?_⟩
  intro id_ label ops
  have haux : ∀ (cp : ControlPoint) (ops : List CPOp),
      cp.positionStatus = STATUS_UNDEFINED →
      (applyCPOps cp ops).positionStatus =
        if ops.any CPOp.isSetPos then STATUS_DEFINED else STATUS_UNDEFINED := by
    intro cp ops
    induction ops generalizing cp with
    | nil => intro h; simpa using h
    | cons op rest ih =>
        intro h
        cases op with
        | setPos x y z =>
            simp only [applyCPOps, List.any_cons, CPOp.isSetPos, Bool.true_or,
              if_true]
            exact hpres _ rest rfl
        | swapCoords =>
            simp only [applyCPOps, List.any_cons, CPOp.isSetPos, Bool.false_or]
            exact ih _ h
  exact haux _ ops rfl

/-- Witness for C8's preservation conjunct at a concrete input. -/
theorem C8_position_status_witness :
    (applyCPOps cpA [.swapCoords, .setPos 1 1 1]).positionStatus = STATUS_DEFINED :=
  C8_position_status.2.2.1 cpA [.swapCoords, .setPos 1 1 1] rfl

/-- Claim C9 counterexample: the two default-constructed markups reference
the same class-level `Display` object, so mutating the display through one
of them is observed through the other — its opacity is no longer the default
`1.0`. -/
theorem C9_display_counterexample :
    (MarkupObj.mkDefault .point).displayRef = (MarkupObj.mkDefault .line).displayRef ∧
    ((initialDisplayStore.setOpacity (MarkupObj.mkDefault .point).displayRef
      (1/2)).get (MarkupObj.mkDefault .line).displayRef).opacity = 1/2 ∧
    ((1 : ℚ)/2) ≠ ({} : Display).opacity :=
  ⟨rfl, rfl, by norm_num⟩

/-- Claim C9 (amended): every `Markup` constructed without an explicit
`display` argument is bound to the single class-level default `Display`
instance, whose fields equal the literal schema defaults; because the object
is shared, a mutation through one markup's `display` is observed through
every other default-constructed markup. -/
theorem C9_display_shared :
    (∀ v : MarkupVariant, (MarkupObj.mkDefault v).displayRef = classDefaultDisplayRef) ∧
    (∀ v : MarkupVariant, initialDisplayStore.get (MarkupObj.mkDefault v).displayRef =
      { visibility := true, opacity := 1, color := [2/5, 1, 1],
        selectedColor := [1, 5000076295109484/10000000000000000,
          5000076295109484/10000000000000000],
        activeColor := [2/5, 1, 1], propertiesLabelVisibility := true,
        pointLabelsVisibility := false, textScale := 3, glyphType := "Sphere3D",
        glyphScale := 3, sliceProjection := false,
        sliceProjectionUseFiducialColor := true,
        sliceProjectionOutlinedBehindSlicePlane := false,
        sliceProjectionColor := [1, 1, 1], sliceProjectionOpacity := 3/5,
        lineThickness := 1/5, lineColorFadingStart := 1, lineColorFadingEnd := 10,
        lineColorFadingSaturation := 1, lineColorFadingHueOffset := 0,
        handlesInteractive := false, translationHandleVisibility := true,
        rotationHandleVisibility := true, scaleHandleVisibility := true,
        interactionHandleScale := 3, snapMode := "toVisibleSurface" }) ∧
    (∀ (v1 v2 : MarkupVariant) (q : ℚ),
      ((initialDisplayStore.setOpacity (MarkupObj.mkDefault v1).displayRef q).get
        (MarkupObj.mkDefault v2).displayRef) = { ({} : Display) with opacity := q }) := by
  exact ⟨fun v => rfl, fun v => rfl, fun v1 v2 q => rfl⟩

/-- The label of the first control point of the first markup of a `make_from`
document, when there is one. -/
def firstControlPointLabel : Except PyError MakeFromOut → Option String
  | .ok (.jsonDoc d) =>
      match d.markups with
      | m :: _ =>
          match m.controlPoints with
          | cp :: _ => some cp.label
          | [] => none
      | [] => none
  | _ => none

/-- Claim C4 counterexample: on the single input point `[1, 2, 3]` the claim
says the control point's label is exactly `"P_1"`, but `make_control_point`
appends `-{id}` (the 0-based enumeration index), producing `"P_1-0"`. -/
theorem C4_make_from_counterexample :
    firstControlPointLabel (Slic3rPointRepresentable.make_from [[1, 2, 3]]) =
      some "P_1-0" ∧ some "P_1-0" ≠ some ("P_1" : String) := by
  exact ⟨rfl, by decide⟩

/-- Components `[p[0], p[1], p[2]]` of a length-3 raw point recover it. -/
theorem rawComponent_eta (p : List ℚ) (h : p.length = 3) :
    [rawComponent p 0, rawComponent p 1, rawComponent p 2] = p := by
  match p, h with
  | [a, b, c], _ => rfl

/-- Claim C4 (amended): `make_from` on the empty list yields the empty-string
no-op; on a non-empty list of validated 3-vectors it yields a document with
exactly one Point markup holding one control point per input, the `i`-th
position equal to the `i`-th input (0-based `i`) — but the `i`-th label is
`"P_{i+1}-{i}"`, because `make_control_point` suffixes the passed label with
`-{id}` where the id is the 0-based index `i`. -/
theorem C4_make_from_amended :
    Slic3rPointRepresentable.make_from [] = .ok .emptyStr ∧
    ∀ pas : List (List ℚ), pas ≠ [] → (∀ p ∈ pas, p.length = 3) →
      ∃ m : Markup, Slic3rPointRepresentable.make_from pas = .ok (.jsonDoc ⟨[m]⟩) ∧
        m.variant = .point ∧
        m.controlPoints.length = pas.length ∧
        m.controlPoints.map (fun cp =>
          [cp.position.x, cp.position.y, cp.position.z]) = pas ∧
        m.controlPoints.map (fun cp => cp.label) =
          (List.range pas.length).map
            (fun i => "P_" ++ toString (i + 1) ++ "-" ++ toString i) := by
  refine ⟨rfl, ?_⟩
  intro pas hne hlen3
  have hlen : ¬ pas.length = 0 := by simpa using hne
  have hall : pas.all (fun p => p.length = 3) = true := by
    rw [List.all_eq_true]
    intro p hp
    exact decide_eq_true (hlen3 p hp)
  refine ⟨{ Markup.factory .point with controlPoints := pas.enum.map (fun ip =>
      ControlPoint.make_control_point ip.1 ("P_" ++ toString (ip.1 + 1))
        (rawComponent ip.2 0) (rawComponent ip.2 1) (rawComponent ip.2 2)) },
    ?_, rfl, ?_, ?_, ?_⟩
  · simp only [Slic3rPointRepresentable.make_from, hlen, if_false, hall, if_true]
  · simp
  · have h1 : (pas.enum.map (fun ip =>
        ControlPoint.make_control_point ip.1 ("P_" ++ toString (ip.1 + 1))
          (rawComponent ip.2 0) (rawComponent ip.2 1)
          (rawComponent ip.2 2))).map (fun cp =>
          [cp.position.x, cp.position.y, cp.position.z]) =
        pas.enum.map (fun ip =>
          [rawComponent ip.2 0, rawComponent ip.2 1, rawComponent ip.2 2]) := by
      rw [List.map_map]
      rfl
    rw [h1]
    have h2 : pas.enum.map (fun ip =>
        [rawComponent ip.2 0, rawComponent ip.2 1, rawComponent ip.2 2]) =
        (pas.enum.map Prod.snd).map (fun p =>
          [rawComponent p 0, rawComponent p 1, rawComponent p 2]) := by
      rw [List.map_map]
      rfl
    rw [h2, List.enum_map_snd]
    have h3 : ∀ (l : List (List ℚ)), (∀ p ∈ l, p.length = 3) →
        l.map (fun p => [rawComponent p 0, rawComponent p 1, rawComponent p 2]) = l := by
      intro l hl
      induction l with
      | nil => rfl
      | cons p rest ih =>
          rw [List.map_cons, rawComponent_eta p (hl p (List.mem_cons_self p rest)),
            ih (fun q hq => hl q (List.mem_cons_of_mem p hq))]
    exact h3 pas hlen3
  · have h1 : (pas.enum.map (fun ip =>
        ControlPoint.make_control_point ip.1 ("P_" ++ toString (ip.1 + 1))
          (rawComponent ip.2 0) (rawComponent ip.2 1)
          (rawComponent ip.2 2))).map (fun cp => cp.label) =
        (pas.enum.map Prod.fst).map
          (fun i => "P_" ++ toString (i + 1) ++ "-" ++ toString i) := by
      rw [List.map_map, List.map_map]
      rfl
    rw [h1, List.enum_map_fst]

/-- Witness for C4's amended theorem at a concrete two-point input. -/
theorem C4_make_from_amended_witness :
    ∃ m : Markup,
      Slic3rPointRepresentable.make_from [[1, 2, 3], [4, 5, 6]] = .ok (.jsonDoc ⟨[m]⟩) ∧
      m.variant = .point ∧
      m.controlPoints.length = ([[1, 2, 3], [4, 5, 6]] : List (List ℚ)).length ∧
      m.controlPoints.map (fun cp =>
        [cp.position.x, cp.position.y, cp.position.z]) = [[1, 2, 3], [4, 5, 6]] ∧
      m.controlPoints.map (fun cp => cp.label) =
        (List.range ([[1, 2, 3], [4, 5, 6]] : List (List ℚ)).length).map
          (fun i => "P_" ++ toString (i + 1) ++ "-" ++ toString i) :=
  C4_make_from_amended.2 [[1, 2, 3], [4, 5, 6]] (by decide) (by decide)

/-- The capacity invariant of the data model: a markup never holds more
control points than its variant's capacity allows. -/
def capacityOk (m : Markup) : Prop :=
  match m.variant.capacity with
  | none => True
  | some c => m.controlPoints.length ≤ c

/-- A type string accepted by a variant's decoder can only have been emitted
for a markup of that same variant. -/
theorem typesList_typeString (v v' : MarkupVariant)
    (h : v'.typeString ∈ v.typesList) : v' = v := by
  cases v <;> cases v' <;> revert h <;> decide

/-- `decodeAddAll` succeeds whenever capacity permits, preserves the variant
and appends exactly the decoded positions in order. -/
theorem decodeAddAll_ok (cps : List ControlPoint) (m : Markup)
    (hcap : m.variant.capacity = none ∨
      ∃ c, m.variant.capacity = some c ∧ m.controlPoints.length + cps.length ≤ c) :
    ∃ m', Markup.decodeAddAll m cps = .ok m' ∧ m'.variant = m.variant ∧
      m'.controlPoints.map (fun cp => cp.position) =
        m.controlPoints.map (fun cp => cp.position) ++
          cps.map (fun cp => cp.position) := by
  induction cps generalizing m with
  | nil => exact ⟨m, rfl, rfl, by simp⟩
  | cons cp rest ih =>
      have hstep : m.add cp.position (some cp.id) = .ok { m with
          controlPoints := m.controlPoints ++
            [ControlPoint.make_control_point (m.controlPoints.length + 1)
              (Markup.addLabel m.variant (some cp.id))
              cp.position.x cp.position.y cp.position.z] } := by
        rcases hcap with h | ⟨c, hc, hle⟩
        · simp [Markup.add, h]
        · have hlt : m.controlPoints.length < c := by
            simp only [List.length_cons] at hle
            omega
          simp [Markup.add, hc, hlt]
      obtain ⟨m', hm', hv', hpos'⟩ := ih { m with
          controlPoints := m.controlPoints ++
            [ControlPoint.make_control_point (m.controlPoints.length + 1)
              (Markup.addLabel m.variant (some cp.id))
              cp.position.x cp.position.y cp.position.z] }
        (by
          rcases hcap with h | ⟨c, hc, hle⟩
          · exact Or.inl h
          · refine Or.inr ⟨c, hc, ?_⟩
            simp only [List.length_append, List.length_cons, List.length_nil] at hle ⊢
            omega)
      refine ⟨m', ?_, by simpa using hv', ?_⟩
      · simp only [Markup.decodeAddAll]
        rw [hstep]
        exact hm'
      · rw [hpos']
        simp [ControlPoint.make_control_point, ControlPoint.set_position]

/-- Claim C1: encoding a well-formed document (every markup's type accepted
by the decoding variant, every markup within capacity) and decoding it with
the matching variant's decoder reproduces the same sequence of markup type
strings and the same ordered control-point positions. -/
theorem C1_roundtrip (d : MrkClass) (v : MarkupVariant)
    (htypes : ∀ m ∈ d.markups, m.variant.typeString ∈ v.typesList)
    (hcap : ∀ m ∈ d.markups, capacityOk m) :
    ∃ ms, Markup.decoder v (MrkClassEncoder.encode d) = .ok ms ∧
      ms.map (fun m => m.variant.typeString) =
        d.markups.map (fun m => m.variant.typeString) ∧
      ms.map (fun m => m.controlPoints.map (fun cp => cp.position)) =
        d.markups.map (fun m => m.controlPoints.map (fun cp => cp.position)) := by
  have main : ∀ (l : List Markup), (∀ m ∈ l, m.variant.typeString ∈ v.typesList) →
      (∀ m ∈ l, capacityOk m) →
      ∃ ms, Markup.decoderAux v (l.map encodeMarkup) = .ok ms ∧
        ms.map (fun m => m.variant.typeString) =
          l.map (fun m => m.variant.typeString) ∧
        ms.map (fun m => m.controlPoints.map (fun cp => cp.position)) =
          l.map (fun m => m.controlPoints.map (fun cp => cp.position)) := by
    intro l
    induction l with
    | nil => exact fun _ _ => ⟨[], rfl, rfl, rfl⟩
    | cons m rest ih =>
        intro htypes hcap
        have hmem : m.variant.typeString ∈ v.typesList :=
          htypes m (List.mem_cons_self m rest)
        have hveq : m.variant = v := typesList_typeString v m.variant hmem
        have hitem : ∃ m', Markup.decodeItem v (encodeMarkup m) = .ok m' ∧
            m'.variant = v ∧
            m'.controlPoints.map (fun cp => cp.position) =
              m.controlPoints.map (fun cp => cp.position) := by
          obtain ⟨m', hm', hv', hpos'⟩ := decodeAddAll_ok m.controlPoints
            (Markup.factory v)
            (by
              have hc := hcap m (List.mem_cons_self m rest)
              unfold capacityOk at hc
              rw [hveq] at hc
              cases hcv : v.capacity with
              | none => exact Or.inl hcv
              | some c =>
                  refine Or.inr ⟨c, hcv, ?_⟩
                  rw [hcv] at hc
                  simpa [Markup.factory] using hc)
          refine ⟨m', ?_, by simpa [Markup.factory] using hv',
            by simpa [Markup.factory] using hpos'⟩
          simp only [Markup.decodeItem, encodeMarkup]
          rw [if_pos hmem]
          exact hm'
        obtain ⟨m', hm', hv', hpos'⟩ := hitem
        obtain ⟨ms, hms, htys, hposs⟩ := ih
          (fun q hq => htypes q (List.mem_cons_of_mem m hq))
          (fun q hq => hcap q (List.mem_cons_of_mem m hq))
        refine ⟨m' :: ms, ?_, ?_, ?_⟩
        · simp only [List.map_cons, Markup.decoderAux]
          rw [hm', hms]
          rfl
        · simp only [List.map_cons, htys, hv', hveq]
        · simp only [List.map_cons, hposs, hpos']
  obtain ⟨ms, hms, htys, hposs⟩ := main d.markups htypes hcap
  exact ⟨ms, hms, htys, hposs⟩

/-- Witness for C1 at a concrete document: one full Line markup. -/
theorem C1_roundtrip_witness :
    ∃ ms, Markup.decoder .line (MrkClassEncoder.encode ⟨[lineMarkupTwo]⟩) = .ok ms ∧
      ms.map (fun m => m.variant.typeString) =
        [lineMarkupTwo].map (fun m => m.variant.typeString) ∧
      ms.map (fun m => m.controlPoints.map (fun cp => cp.position)) =
        [lineMarkupTwo].map (fun m => m.controlPoints.map (fun cp => cp.position)) :=
  C1_roundtrip ⟨[lineMarkupTwo]⟩ .line (by decide)
    (by
      intro m hm
      rw [List.mem_singleton] at hm
      subst hm
      show lineMarkupTwo.controlPoints.length ≤ 2
      decide)

/-- The flattened raw geometry of a representable: all its control-point
positions in per-markup, per-point order. -/
def rawPoints : Representable → List V3
  | .point ps => ps
  | .line ls => ls.flatten
  | .curve cs => cs.flatten

/-- Well-formedness of a representable's raw geometry per the data model: a
line holds exactly two endpoints (points and curves are unconstrained). -/
def wellFormed : Representable → Prop
  | .line ls => ∀ l ∈ ls, l.length = 2
  | _ => True

/-- On a markup of unbounded capacity, `add` always succeeds and appends the
point's position. -/
theorem add_capacity_none (m : Markup) (p : V3) (i : Option Nat)
    (h : m.variant.capacity = none) :
    ∃ m', m.add p i = .ok m' ∧ m'.variant = m.variant ∧
      m'.controlPoints.map (fun cp => cp.position) =
        m.controlPoints.map (fun cp => cp.position) ++ [p] := by
  refine ⟨{ m with controlPoints := m.controlPoints ++
      [ControlPoint.make_control_point (m.controlPoints.length + 1)
        (Markup.addLabel m.variant i) p.x p.y p.z] }, ?_, rfl, ?_⟩
  · simp [Markup.add, h]
  · simp [ControlPoint.make_control_point, ControlPoint.set_position]

/-- `addList` on an unbounded markup appends all positions in order. -/
theorem addList_capacity_none (ps : List V3) (m : Markup)
    (h : m.variant.capacity = none) :
    ∃ m', m.addList ps = .ok m' ∧ m'.variant = m.variant ∧
      m'.controlPoints.map (fun cp => cp.position) =
        m.controlPoints.map (fun cp => cp.position) ++ ps := by
  induction ps generalizing m with
  | nil => exact ⟨m, rfl, rfl, by simp⟩
  | cons p rest ih =>
      obtain ⟨m1, hm1, hv1, hpos1⟩ := add_capacity_none m p none h
      obtain ⟨m', hm', hv', hpos'⟩ := ih m1 (by rw [hv1]; exact h)
      refine ⟨m', ?_, by rw [hv', hv1], ?_⟩
      · simp only [Markup.addList]
        rw [hm1]
        exact hm'
      · rw [hpos', hpos1]
        simp

/-- `pointAddLoop` on an unbounded markup appends all positions in order. -/
theorem pointAddLoop_ok (ps : List V3) (m : Markup) (n : Nat)
    (h : m.variant.capacity = none) :
    ∃ m', pointAddLoop m n ps = .ok m' ∧ m'.variant = m.variant ∧
      m'.controlPoints.map (fun cp => cp.position) =
        m.controlPoints.map (fun cp => cp.position) ++ ps := by
  induction ps generalizing m n with
  | nil => exact ⟨m, rfl, rfl, by simp⟩
  | cons p rest ih =>
      obtain ⟨m1, hm1, hv1, hpos1⟩ := add_capacity_none m p (some n) h
      obtain ⟨m', hm', hv', hpos'⟩ := ih m1 (n + 1) (by rw [hv1]; exact h)
      refine ⟨m', ?_, by rw [hv', hv1], ?_⟩
      · simp only [pointAddLoop]
        rw [hm1]
        exact hm'
      · rw [hpos', hpos1]
        simp

/-- A well-formed line yields a markup holding exactly its two endpoints. -/
theorem lineMarkupFor_ok (l : List V3) (n : Nat) (h : l.length = 2) :
    ∃ m, lineMarkupFor l n = .ok m ∧
      m.controlPoints.map (fun cp => cp.position) = l := by
  match l, h with
  | [a, b], _ =>
      refine ⟨_, rfl, ?_⟩
      simp [Markup.add, Markup.factory, MarkupVariant.capacity,
        ControlPoint.make_control_point, ControlPoint.set_position]

/-- `lineUpdateLoop` on well-formed lines flattens back to the raw lines. -/
theorem lineUpdateLoop_ok (ls : List (List V3)) (n : Nat)
    (h : ∀ l ∈ ls, l.length = 2) :
    ∃ ms, lineUpdateLoop n ls = .ok ms ∧ flattenMarkups ms = ls.flatten := by
  induction ls generalizing n with
  | nil => exact ⟨[], rfl, rfl⟩
  | cons l rest ih =>
      obtain ⟨m, hm, hpos⟩ := lineMarkupFor_ok l n (h l (List.mem_cons_self l rest))
      obtain ⟨ms, hms, hflat⟩ := ih (n + 1)
        (fun q hq => h q (List.mem_cons_of_mem l hq))
      refine ⟨m :: ms, ?_, ?_⟩
      · simp only [lineUpdateLoop]
        rw [hm, hms]
        rfl
      · simp [flattenMarkups] at hflat ⊢
        rw [hpos, hflat]

/-- `curveUpdateLoop` flattens back to the raw curves. -/
theorem curveUpdateLoop_ok (cs : List (List V3)) :
    ∃ ms, curveUpdateLoop cs = .ok ms ∧ flattenMarkups ms = cs.flatten := by
  induction cs with
  | nil => exact ⟨[], rfl, rfl⟩
  | cons c rest ih =>
      obtain ⟨m, hm, _, hpos⟩ :=
        addList_capacity_none c (Markup.factory .curve) rfl
      obtain ⟨ms, hms, hflat⟩ := ih
      refine ⟨m :: ms, ?_, ?_⟩
      · simp only [curveUpdateLoop, curveMarkupFor]
        rw [hm, hms]
        rfl
      · simp [flattenMarkups] at hflat ⊢
        rw [hpos, hflat]
        simp [Markup.factory]

/-- `_update_markups` on a well-formed representable succeeds and its
flattened markups are exactly the representable's raw points. -/
theorem updateMarkups_ok (r : Representable) (h : wellFormed r) :
    ∃ ms, r.updateMarkups = .ok ms ∧ flattenMarkups ms = rawPoints r := by
  cases r with
  | point ps =>
      obtain ⟨m, hm, _, hpos⟩ := pointAddLoop_ok ps (Markup.factory .point) 1 rfl
      refine ⟨[m], ?_, ?_⟩
      · simp only [Representable.updateMarkups]
        rw [hm]
        rfl
      · simp only [flattenMarkups, List.map_cons, List.map_nil, List.flatten,
          rawPoints]
        rw [hpos]
        simp [Markup.factory]
  | line ls => exact lineUpdateLoop_ok ls 1 h
  | curve cs => exact curveUpdateLoop_ok cs

/-- `concatenateLoop` over well-formed representables concatenates raw
points in argument order. -/
theorem concatenateLoop_ok (rs : List Representable)
    (h : ∀ r ∈ rs, wellFormed r) :
    concatenateLoop rs = .ok ((rs.map rawPoints).flatten) := by
  induction rs with
  | nil => rfl
  | cons r rest ih =>
      obtain ⟨ms, hms, hflat⟩ := updateMarkups_ok r (h r (List.mem_cons_self r rest))
      have htail := ih (fun q hq => h q (List.mem_cons_of_mem r hq))
      simp only [concatenateLoop]
      rw [hms, htail]
      show Except.ok _ = _
      rw [hflat]
      simp

/-- Claim C6: `concatenate` on a non-empty argument list with two arguments
of different variants fails with the type-mismatch assertion (which runs
before any input is rebuilt or flattened — the definition branches on the
check before `concatenateLoop`); on arguments all of one variant it returns
a point representable whose points are the concatenation of all inputs'
control-point positions in per-input, per-markup, per-point order. -/
theorem C6_concatenate :
    (∀ (r0 : Representable) (rest : List Representable) (r' : Representable),
      r' ∈ rest → r'.kind ≠ r0.kind →
      concatenate (r0 :: rest) = .error .assertionError) ∧
    (∀ (r0 : Representable) (rest : List Representable),
      (∀ r ∈ rest, r.kind = r0.kind) → (∀ r ∈ r0 :: rest, wellFormed r) →
      concatenate (r0 :: rest) = .ok ⟨((r0 :: rest).map rawPoints).flatten⟩) := by
  constructor
  · intro r0 rest r' hmem hne
    have hall : ¬ ((r0 :: rest).all fun r => r.kind = r0.kind) := by
      simp only [List.all_eq_true, decide_eq_true_eq]
      intro hforall
      exact hne (hforall r' (List.mem_cons_of_mem r0 hmem))
    simp only [concatenate]
    rw [if_neg (by simpa using hall)]
  · intro r0 rest hkinds hwf
    have hall : ((r0 :: rest).all fun r => r.kind = r0.kind) = true := by
      simp only [List.all_eq_true, decide_eq_true_eq]
      intro r hr
      rcases List.mem_cons.mp hr with h | h
      · rw [h]
      · exact hkinds r h
    simp only [concatenate]
    rw [if_pos (by simpa using hall), concatenateLoop_ok (r0 :: rest) hwf]
    rfl

/-- Witness for C6 at concrete inputs: a point/line mix is rejected, and two
point representables concatenate to the ordered union of their points. -/
theorem C6_concatenate_witness :
    concatenate [.point [⟨1, 2, 3⟩], .line [[⟨0, 0, 0⟩, ⟨1, 0, 0⟩]]] =
      .error .assertionError ∧
    concatenate [.point [⟨1, 2, 3⟩], .point [⟨4, 5, 6⟩, ⟨7, 8, 9⟩]] =
      .ok ⟨[⟨1, 2, 3⟩, ⟨4, 5, 6⟩, ⟨7, 8, 9⟩]⟩ :=
  ⟨C6_concatenate.1 (.point [⟨1, 2, 3⟩]) [.line [[⟨0, 0, 0⟩, ⟨1, 0, 0⟩]]]
      (.line [[⟨0, 0, 0⟩, ⟨1, 0, 0⟩]]) (List.mem_singleton.mpr rfl) (by decide),
   C6_concatenate.2 (.point [⟨1, 2, 3⟩]) [.point [⟨4, 5, 6⟩, ⟨7, 8, 9⟩]]
      (by intro r hr; rw [List.mem_singleton] at hr; subst hr; rfl)
      (by intro r hr; rcases List.mem_cons.mp hr with h | h
          · subst h; trivial
          · rw [List.mem_singleton] at h; subst h; trivial)⟩

/-- Claim C10: `write` and `write_from` never propagate an exception — they
always return normally — and whenever opening the file fails or the body
(rebuilding via `_update_markups`, or `make_from` with its eager shape
assertions) raises, the outcome is the could-not-write message naming the
path; when everything succeeds the serialised document is written. -/
theorem C10_write_swallows :
    (∀ (openOk : Bool) (r : Representable) (path : String),
      ∃ o, Slic3rRepresentable.write openOk r path = .ok o) ∧
    (∀ (r : Representable) (path : String),
      Slic3rRepresentable.write false r path = .ok (.couldNotWrite path)) ∧
    (∀ (openOk : Bool) (r : Representable) (path : String) (e : PyError),
      r.updateMarkups = .error e →
      Slic3rRepresentable.write openOk r path = .ok (.couldNotWrite path)) ∧
    (∀ (r : Representable) (path : String) (ms : List Markup),
      r.updateMarkups = .ok ms →
      Slic3rRepresentable.write true r path =
        .ok (.wrote (MrkClassEncoder.encode ⟨ms⟩))) ∧
    (∀ (openOk : Bool) (pas : List (List ℚ)) (path : String),
      ∃ o, Slic3rRepresentable.write_from openOk pas path = .ok o) ∧
    (∀ (pas : List (List ℚ)) (path : String),
      Slic3rRepresentable.write_from false pas path = .ok (.couldNotWrite path)) ∧
    (∀ (openOk : Bool) (pas : List (List ℚ)) (path : String) (e : PyError),
      Slic3rPointRepresentable.make_from pas = .error e →
      Slic3rRepresentable.write_from openOk pas path = .ok (.couldNotWrite path)) ∧
    (∀ (pas : List (List ℚ)) (path : String) (out : MakeFromOut),
      Slic3rPointRepresentable.make_from pas = .ok out →
      Slic3rRepresentable.write_from true pas path = .ok (.wrote out)) := by
  refine ⟨fun openOk r path => ⟨_, rfl⟩, fun r path => rfl, ?_, ?_,
    fun openOk pas path => ⟨_, rfl⟩, fun pas path => rfl, ?_, ?_⟩
  · intro openOk r path e he
    cases openOk with
    | false => rfl
    | true =>
        simp only [Slic3rRepresentable.write, Slic3rRepresentable.printResult,
          openForWrite, if_true, he]
        rfl
  · intro r path ms hms
    simp only [Slic3rRepresentable.write, Slic3rRepresentable.printResult,
      openForWrite, if_true, hms]
    rfl
  · intro openOk pas path e he
    cases openOk with
    | false => rfl
    | true =>
        simp only [Slic3rRepresentable.write_from, openForWrite, if_true, he]
        rfl
  · intro pas path out hout
    simp only [Slic3rRepresentable.write_from, openForWrite, if_true, hout]
    rfl

/-- Witness for C10 at concrete inputs: a malformed `write_from` input (its
shape assertion raises) yields the message even though the file opened, and
a failed open on `write` yields the message for a well-formed input. -/
theorem C10_write_swallows_witness :
    Slic3rRepresentable.write_from true [[1]] "out.mrk.json" =
      .ok (.couldNotWrite "out.mrk.json") ∧
    Slic3rRepresentable.write false (.point [⟨1, 2, 3⟩]) "out.mrk.json" =
      .ok (.couldNotWrite "out.mrk.json") :=
  ⟨C10_write_swallows.2.2.2.2.2.2.1 true [[1]] "out.mrk.json" .assertionError rfl,
   C10_write_swallows.2.1 (.point [⟨1, 2, 3⟩]) "out.mrk.json"⟩

/-- Concrete axes with distinct row norms: rows `(3,4,0)`, `(0,1,0)`,
`(0,0,1)` of norms `5`, `1`, `1`. -/
noncomputable def c5Axes : Fin 3 → Fin 3 → ℝ := ![![3, 4, 0], ![0, 1, 0], ![0, 0, 1]]

theorem c5_rowNorm_zero : rowNorm c5Axes 0 = 5 := by
  simp only [rowNorm, c5Axes, Fin.sum_univ_three, Matrix.cons_val_zero,
    Matrix.cons_val_one, Matrix.cons_val_two, Matrix.head_cons, Matrix.tail_cons]
  rw [show ((3:ℝ) ^ 2 + 4 ^ 2 + 0 ^ 2) = 5 ^ 2 by norm_num]
  exact Real.sqrt_sq (by norm_num)

theorem c5_rowNorm_one : rowNorm c5Axes 1 = 1 := by
  simp only [rowNorm, c5Axes, Fin.sum_univ_three, Matrix.cons_val_zero,
    Matrix.cons_val_one, Matrix.cons_val_two, Matrix.head_cons, Matrix.tail_cons]
  rw [show ((0:ℝ) ^ 2 + 1 ^ 2 + 0 ^ 2) = 1 by norm_num]
  exact Real.sqrt_one

theorem c5_rowNorm_two : rowNorm c5Axes 2 = 1 := by
  simp only [rowNorm, c5Axes, Fin.sum_univ_three, Matrix.cons_val_zero,
    Matrix.cons_val_one, Matrix.cons_val_two, Matrix.head_cons, Matrix.tail_cons]
  rw [show ((0:ℝ) ^ 2 + 0 ^ 2 + 1 ^ 2) = 1 by norm_num]
  exact Real.sqrt_one

/-- Claim C5 counterexample: at center `(0,0,0)`, axes rows `(3,4,0)`,
`(0,1,0)`, `(0,0,1)` and scale `(1,1,1)`, the code returns first coordinate
`-(3/5·1/2 + 4/1·1/2) = -23/10` while the claimed row-wise normalisation
yields `-(3/5 + 4/5)·1/2 = -7/10`: the in-place `axes /= norm(axes, axis=1)`
broadcasts the row-norm vector across columns, it does not normalise rows. -/
theorem C5_center_to_origin_counterexample :
    center_to_origin_scaled (fun _ => 0) c5Axes (fun _ => 1) 0 = -(23/10) ∧
    center_to_origin_scaled_claimed (fun _ => 0) c5Axes (fun _ => 1) 0 = -(7/10) ∧
    center_to_origin_scaled (fun _ => 0) c5Axes (fun _ => 1) 0 ≠
      center_to_origin_scaled_claimed (fun _ => 0) c5Axes (fun _ => 1) 0 := by
  have hcode : center_to_origin_scaled (fun _ => 0) c5Axes (fun _ => 1) 0 = -(23/10) := by
    simp only [center_to_origin_scaled, npMatVec, npBroadcastDiv, halfVec,
      Fin.sum_univ_three]
    rw [c5_rowNorm_zero, c5_rowNorm_one, c5_rowNorm_two]
    simp only [c5Axes, Matrix.cons_val_zero, Matrix.cons_val_one,
      Matrix.cons_val_two, Matrix.head_cons, Matrix.tail_cons]
    norm_num
  have hclaim : center_to_origin_scaled_claimed (fun _ => 0) c5Axes (fun _ => 1) 0 =
      -(7/10) := by
    simp only [center_to_origin_scaled_claimed, npMatVec, halfVec,
      Fin.sum_univ_three]
    rw [c5_rowNorm_zero]
    simp only [c5Axes, Matrix.cons_val_zero, Matrix.cons_val_one,
      Matrix.cons_val_two, Matrix.head_cons, Matrix.tail_cons]
    norm_num
  refine ⟨hcode, hclaim, ?_⟩
  rw [hcode, hclaim]
  norm_num

/-- Claim C5 (amended): with `scale` unset the origin is
`center − axes·[0.5,0.5,0.5]` with the axes rows taken as given (so the
identity example yields `(−0.5,−0.5,−0.5)`); with `scale` given (as a numpy
3-vector, making `[0.5,0.5,0.5] * scale` the elementwise product), entry
`(i,j)` of the axes is divided by the L2 norm of row `j` — the broadcast
divides columns by the row-norm vector rather than normalising rows — before
the offset `0.5·scale` is applied. -/
theorem C5_center_to_origin_amended :
    (∀ (center : Fin 3 → ℝ) (axes : Fin 3 → Fin 3 → ℝ),
      center_to_origin center axes = fun i => center i - ∑ j, axes i j * (1/2)) ∧
    (∀ (center : Fin 3 → ℝ) (axes : Fin 3 → Fin 3 → ℝ) (scale : Fin 3 → ℝ),
      center_to_origin_scaled center axes scale = fun i =>
        center i - ∑ j, (axes i j / Real.sqrt (∑ k, (axes j k) ^ 2)) * (scale j / 2)) ∧
    center_to_origin (fun _ => 0) ![![1, 0, 0], ![0, 1, 0], ![0, 0, 1]] =
      fun _ => -(1/2) := by
  refine ⟨?_, ?_, ?_⟩
  · intro center axes
    funext i
    simp only [center_to_origin, npMatVec, halfVec]
  · intro center axes scale
    funext i
    simp only [center_to_origin_scaled, npMatVec, npBroadcastDiv, halfVec, rowNorm]
    congr 1
    refine Finset.sum_congr rfl (fun j _ => ?_)
    ring
  · funext i
    fin_cases i <;>
      simp [center_to_origin, npMatVec, halfVec, Fin.sum_univ_three,
        Matrix.cons_val_zero, Matrix.cons_val_one, Matrix.cons_val_two,
        Matrix.head_cons, Matrix.tail_cons]

end Slic3rDisplay
